import Mathlib

/-!
Verification development for the Agent Reply Orchestration Engine of the
openclaw repository.  The engine implementation (`reply.js` / `agent-runner.ts`
/ `pi-embedded-subscribe.ts`) is exercised by the repository's tests; the
operational definitions below are shallow embeddings of that engine, modelled
from the specification, with text represented as lists of characters and
stores as association lists.
-/

namespace OpenClaw

/-- Text is modelled as a list of characters. -/
abbrev Txt := List Char

/-- Whitespace predicate used by all trimming operations. -/
def isWS (c : Char) : Bool :=
  c = ' ' || c = '\n' || c = '\t' || c = '\r'

/-- Drop leading whitespace. -/
def trimL (l : Txt) : Txt := l.dropWhile isWS

/-- Drop trailing whitespace. -/
def trimR (l : Txt) : Txt := (l.reverse.dropWhile isWS).reverse

/-- Trim whitespace from both ends. -/
def trimC (l : Txt) : Txt := trimL (trimR l)

/-- Test whether `p` is an initial segment of `l`. -/
def leadsWith : Txt → Txt → Bool
  | [], _ => true
  | _ :: _, [] => false
  | a :: as, b :: bs => a = b && leadsWith as bs

/-- Split `l` around the first occurrence of `pat`,
returning the part before and the part after, or `none` when `pat` does not
occur in `l`. -/
def splitFirst (pat : Txt) : Txt → Option (Txt × Txt)
  | [] => none
  | c :: rest =>
    if leadsWith pat (c :: rest) then some ([], (c :: rest).drop pat.length)
    else
      match splitFirst pat rest with
      | some (a, b) => some (c :: a, b)
      | none => none

/-- Substring containment test. -/
def containsSeq (pat l : Txt) : Bool := (splitFirst pat l).isSome


/-! ## Session store

Modelled from the spec: "Session Store — durable map from session key to
session state"; one `SessionEntry` per session key with the bookkeeping
fields of §3 of the specification. -/

/-- Modelled from the spec: the per-key session state (`SessionEntry`, §3 of
the specification); the implementation module `config/sessions.js` is not part
of the provided sources. -/
structure SessionEntry where
  sessionId : String
  updatedAt : Nat := 0
  totalTokens : Nat := 0
  compactionCount : Nat := 0
  memoryFlushCompactionCount : Option Nat := none
  memoryFlushAt : Option Nat := none
  abortedLastRun : Bool := false
  sendPolicy : Option String := none
  elevatedLevel : Option String := none
  groupActivation : Option String := none
deriving DecidableEq, Repr

/-- A session store is an association list from session keys to entries. -/
abbrev Store := List (String × SessionEntry)

namespace Store

/-- Look up the entry for a key. -/
def find : Store → String → Option SessionEntry
  | [], _ => none
  | (k', e) :: rest, k => if k' = k then some e else find rest k

/-- Replace (or append) the entry for a key. -/
def set : Store → String → SessionEntry → Store
  | [], k, e => [(k, e)]
  | (k', e') :: rest, k, e => if k' = k then (k, e) :: rest else (k', e') :: set rest k e

/-- Remove every entry for a key. -/
def remove : Store → String → Store
  | [], _ => []
  | (k', e') :: rest, k => if k' = k then remove rest k else (k', e') :: remove rest k

end Store

/-! ## Reply engine dispatch (`getReplyFromConfig`)

Modelled from the spec: `reply.js` (the module under test in the repository's
trigger-handling suite) is not part of the provided sources.  The model covers
the control-directive dispatch of §4.1/§6: stop-word recognition on the
trimmed, timestamp-stripped body; slash commands recognised only when they are
the entire body; otherwise an agent run whose reply text has the heartbeat
sentinel stripped at the edges (§8). -/

/-- Modelled from the spec: the heartbeat-suppression token string
(`tokens.js` is not part of the provided sources). -/
def HEARTBEAT_TOKEN : Txt := "HEARTBEAT_OK".toList

/-- Modelled from the spec: the fixed stop vocabulary
("stop/abort/wait/exit and slash-command equivalents", §4.1). -/
def STOP_WORDS : List Txt :=
  ["stop", "abort", "wait", "exit", "/stop", "/abort", "/wait", "/exit"].map String.toList

/-- Modelled from the spec: the fixed "aborted" reply text. -/
def abortedReplyText : Txt := "⚙️ Agent was aborted.".toList

/-- Strip one leading `[...]` timestamp bracket (after leading whitespace). -/
def stripTimestampMark (l : Txt) : Txt :=
  let t := trimL l
  match t with
  | '[' :: rest =>
    match rest.dropWhile (fun c => ¬(c = ']')) with
    | ']' :: r' => r'
    | _ => t
  | _ => t

/-- The trimmed, timestamp-stripped message body used for trigger matching. -/
def processedBody (l : Txt) : Txt := trimC (stripTimestampMark l)

/-- Drop `n` characters from the end. -/
def dropEnd (n : Nat) (l : Txt) : Txt := (l.reverse.drop n).reverse

/-- Test whether `p` is a final segment of `l`. -/
def trailsWith (p l : Txt) : Bool := leadsWith p.reverse l.reverse

/-- Strip a leading heartbeat sentinel together with following whitespace. -/
def dropLeadToken (t : Txt) : Txt :=
  if leadsWith HEARTBEAT_TOKEN t then trimC (t.drop HEARTBEAT_TOKEN.length) else t

/-- Strip a trailing heartbeat sentinel together with preceding whitespace. -/
def dropTailToken (t : Txt) : Txt :=
  if trailsWith HEARTBEAT_TOKEN t then trimC (dropEnd HEARTBEAT_TOKEN.length t) else t

/-- Strip the heartbeat sentinel when it appears as an edge token, together
with surrounding whitespace. -/
def stripHeartbeatText (l : Txt) : Txt :=
  dropTailToken (dropLeadToken (trimC l))

/-- Post-process the agent's reply text: outside heartbeat context the
sentinel is stripped at the edges and a reply that is left empty is suppressed
entirely. -/
def processAgentText (isHeartbeat : Bool) (t : Txt) : Option Txt :=
  if isHeartbeat then
    if (trimC t).isEmpty then none else some (trimC t)
  else if (stripHeartbeatText t).isEmpty then none
  else some (stripHeartbeatText t)

/-- Inbound message context (the fields of the webhook context the dispatch
decision depends on). -/
structure ReplyCtx where
  body : Txt
  senderKey : String
  commandTargetSessionKey : Option String := none
  isHeartbeat : Bool := false

/-- Observable outcome of one `getReplyFromConfig` call: the reply payload,
whether the agent capability was invoked (and with which prompt), which
session ids were aborted, and the updated session store. -/
structure EngineOutcome where
  reply : Option Txt
  agentInvoked : Bool
  agentPrompt : Option Txt
  abortCalls : List String
  store : Store
deriving DecidableEq

/-- Stand-in reply for the slash-command handlers that are out of the claims'
scope (status/help/...): the dispatch decision is what matters here. -/
def commandReplyFor (body : Txt) : Txt := "⚙️ Command handled: ".toList ++ body

/-- Modelled from the spec: the trigger dispatch of `getReplyFromConfig`
(`reply.js` is not part of the provided sources).  A stop-word body
short-circuits to an abort of the target session key (which may differ from
the requester's key); a body that is entirely a slash command is handled as a
command; anything else becomes an agent run whose reply is post-processed for
the heartbeat sentinel. -/
def getReplyFromConfig (ctx : ReplyCtx) (store : Store) (agentText : Txt) : EngineOutcome :=
  let body := processedBody ctx.body
  if body ∈ STOP_WORDS then
    match store.find (ctx.commandTargetSessionKey.getD ctx.senderKey) with
    | some e =>
      { reply := some abortedReplyText, agentInvoked := false, agentPrompt := none,
        abortCalls := [e.sessionId],
        store := store.set (ctx.commandTargetSessionKey.getD ctx.senderKey)
          { e with abortedLastRun := true } }
    | none =>
      { reply := some abortedReplyText, agentInvoked := false, agentPrompt := none,
        abortCalls := [], store := store }
  else if body.head? = some '/' then
    { reply := some (commandReplyFor body), agentInvoked := false, agentPrompt := none,
      abortCalls := [], store := store }
  else
    { reply := processAgentText ctx.isHeartbeat agentText, agentInvoked := true,
      agentPrompt := some ctx.body, abortCalls := [], store := store }

/-! ## Agent runner (`runReplyAgent`)

Modelled from the spec: `agent-runner.ts` (the module under test in
`agent-runner.runreplyagent.test.ts`) is not part of the provided sources.
The model covers the Compaction Coordinator (§4.4) — an optional memory-flush
turn before the user's turn — and the Error Recovery Policy (§4.3/§7): the
classification of a failed run and the resulting session reset action. -/

/-- Agent backend kind: embedded structured-turn backends support the memory
flush; opaque external CLI backends do not (§4.4). -/
inductive Backend
  | embedded
  | cli
deriving DecidableEq, Repr

/-- The configuration bits the runner model depends on. -/
structure RunnerConfig where
  backend : Backend := Backend.embedded
  memoryFlushEnabled : Bool := true
deriving DecidableEq, Repr

/-- The value `memoryFlushCompactionCount` is compared at: unset counts as
zero. -/
def mfccVal (e : SessionEntry) : Nat := e.memoryFlushCompactionCount.getD 0

/-- Modelled from the spec: the memory-flush eligibility test of §4.4 —
embedded backend, enabled by configuration, and no flush yet in the current
compaction cycle (`memoryFlushCompactionCount >= compactionCount` skips). -/
def shouldFlush (cfg : RunnerConfig) (e : SessionEntry) : Bool :=
  (match cfg.backend with | Backend.embedded => true | Backend.cli => false)
    && cfg.memoryFlushEnabled && decide (mfccVal e < e.compactionCount)

/-- Modelled from the spec: the fixed flush prompt template containing the
fixed phrase, the current time and a dated `memory/YYYY-MM-DD.md` path
(§4.4/§6). -/
def flushPromptTxt (now today : Txt) : Txt :=
  "Pre-compaction memory flush. Current time: ".toList ++ now ++
    (". Write lasting notes to memory/".toList ++ (today ++ ".md before compaction runs.".toList))

/-- Bookkeeping applied by the flush turn: each compaction `end` event during
the turn increments `compactionCount`, and the flush records
`memoryFlushCompactionCount = compactionCount` and `memoryFlushAt = now`
(§4.4). -/
def applyFlush (e : SessionEntry) (flushCompactionEnds nowMs : Nat) : SessionEntry :=
  let cc := e.compactionCount + flushCompactionEnds
  { e with compactionCount := cc, memoryFlushCompactionCount := some cc,
           memoryFlushAt := some nowMs }

/-- Error Recovery Policy categories (§7). -/
inductive ErrCategory
  | compactionFailure
  | contextOverflow
  | roleOrdering
  | corruptedSession
  | transportFailure
  | generic
deriving DecidableEq, Repr

def compactionSig : Txt := "Summarization failed".toList
def overflowSigA : Txt := "Context overflow".toList
def overflowSigB : Txt := "Context window exceeded".toList
def overflowSigC : Txt := "prompt is too long".toList
def roleSigA : Txt := "roles must alternate".toList
def roleSigB : Txt := "Incorrect role information".toList
def corruptionSig : Txt :=
  "function call turn comes immediately after a user turn".toList
def transportSig : Txt := "socket connection was closed unexpectedly".toList

/-- Modelled from the spec: `classify(thrownErrorOrErrorPayload)` of §4.3,
matching the recognised signature substrings in the order of the §7 table. -/
def classifyErr (msg : Txt) : ErrCategory :=
  if containsSeq compactionSig msg then ErrCategory.compactionFailure
  else if containsSeq overflowSigA msg || containsSeq overflowSigB msg
      || containsSeq overflowSigC msg then ErrCategory.contextOverflow
  else if containsSeq roleSigA msg || containsSeq roleSigB msg then ErrCategory.roleOrdering
  else if containsSeq corruptionSig msg then ErrCategory.corruptedSession
  else if containsSeq transportSig msg then ErrCategory.transportFailure
  else ErrCategory.generic

def compactionFailureReply : Txt :=
  "⚠️ Context limit exceeded during compaction - session reset. Please retry.".toList
def overflowReply : Txt :=
  "⚠️ Context limit exceeded - session reset. Please retry.".toList
def roleOrderingReply : Txt :=
  "⚠️ Message ordering conflict - session reset. Please retry.".toList
def corruptedReply : Txt :=
  "⚠️ Session history was corrupted. Starting a fresh session - please retry.".toList
def transportReplyLead : Txt := "⚠️ LLM connection failed.\n```\n".toList
def transportReply (msg : Txt) : Txt := transportReplyLead ++ msg ++ "\n```".toList
def genericReplyLead : Txt := "⚠️ Agent failed before reply: ".toList
def genericReplyTail : Txt := ". Check gateway logs for details.".toList
def genericReply (msg : Txt) : Txt := genericReplyLead ++ msg ++ genericReplyTail

/-- The session state a run acts on: in-memory store, persisted store, and
whether the transcript file for the run's session still exists. -/
structure RunnerState where
  mem : Store
  persisted : Store
  transcriptExists : Bool := true
deriving DecidableEq

/-- Inputs of one `runReplyAgent` call: the user prompt, time rendering, the
number of compaction `end` events the agent emits during the flush turn, and
the outcome of the user's (main) turn. -/
structure RunnerInput where
  userPrompt : Txt
  now : Txt := []
  today : Txt := []
  nowMs : Nat := 0
  freshSessionId : String := "fresh"
  flushCompactionEnds : Nat := 0
  mainResult : Except Txt Txt

/-- Observable outcome of one `runReplyAgent` call: the agent turns issued (by
prompt, in order), the reply text, and the resulting session state. -/
structure RunnerResult where
  prompts : List Txt
  reply : Txt
  state : RunnerState
deriving DecidableEq

/-- Modelled from the spec: the per-category recovery action of §7.  Soft
resets reassign a fresh session id and keep the entry (role-ordering conflicts
additionally delete the transcript); the corrupted-transcript category is a
hard reset removing the entry from both stores and deleting the transcript;
transport and generic failures leave the session state untouched. -/
def handleRunError (msg : Txt) (key : String) (e : SessionEntry) (fresh : String)
    (st : RunnerState) : Txt × RunnerState :=
  match classifyErr msg with
  | ErrCategory.compactionFailure =>
    let e' := { e with sessionId := fresh }
    (compactionFailureReply,
      { st with mem := st.mem.set key e', persisted := st.persisted.set key e' })
  | ErrCategory.contextOverflow =>
    let e' := { e with sessionId := fresh }
    (overflowReply,
      { st with mem := st.mem.set key e', persisted := st.persisted.set key e' })
  | ErrCategory.roleOrdering =>
    let e' := { e with sessionId := fresh }
    (roleOrderingReply,
      { mem := st.mem.set key e', persisted := st.persisted.set key e',
        transcriptExists := false })
  | ErrCategory.corruptedSession =>
    (corruptedReply,
      { mem := st.mem.remove key, persisted := st.persisted.remove key,
        transcriptExists := false })
  | ErrCategory.transportFailure => (transportReply msg, st)
  | ErrCategory.generic => (genericReply msg, st)

/-- Modelled from the spec: `runReplyAgent` — run the optional memory-flush
turn (persisting its bookkeeping), then the user's turn; on success update the
entry's activity timestamp, on failure apply the Error Recovery Policy. -/
def runReplyAgent (cfg : RunnerConfig) (key : String) (e : SessionEntry)
    (inp : RunnerInput) (st : RunnerState) : RunnerResult :=
  let doFlush := shouldFlush cfg e
  let e1 := if doFlush then applyFlush e inp.flushCompactionEnds inp.nowMs else e
  let st1 := if doFlush then
      { st with mem := st.mem.set key e1, persisted := st.persisted.set key e1 }
    else st
  let prompts := if doFlush then [flushPromptTxt inp.now inp.today, inp.userPrompt]
    else [inp.userPrompt]
  match inp.mainResult with
  | Except.ok text =>
    let e2 := { e1 with updatedAt := inp.nowMs }
    { prompts := prompts, reply := text,
      state := { st1 with mem := st1.mem.set key e2, persisted := st1.persisted.set key e2 } }
  | Except.error msg =>
    let r := handleRunError msg key e1 inp.freshSessionId st1
    { prompts := prompts, reply := r.1, state := r.2 }

/-! ## Agent event normalizer (`subscribeEmbeddedPiSession`)

Modelled from the spec: `pi-embedded-subscribe.ts` is not part of the provided
sources.  The model covers §4.2: a rolling text buffer per assistant message
detects open/close pairs of the accepted reasoning-tag spellings even when
they straddle chunk boundaries; tagged content is withheld from the visible
text and delivered through a reasoning callback wrapped in the
`"Reasoning:"` template; at message end the structured content is rewritten
into a thinking segment followed by a text segment.  Tool results are tracked
by an action signature of tool name plus semantically significant
arguments. -/

/-- The accepted reasoning-tag spellings, as (open, close) marker pairs. -/
def TAGS : List (Txt × Txt) :=
  [("<think>".toList, "</think>".toList),
   ("<thinking>".toList, "</thinking>".toList),
   ("<thought>".toList, "</thought>".toList),
   ("<antthinking>".toList, "</antthinking>".toList)]

/-- The reasoning template: `"Reasoning:\n_..._"`. -/
def wrapReasoning (inner : Txt) : Txt :=
  "Reasoning:\n_".toList ++ inner ++ "_".toList

/-- The first tag spelling whose open marker occurs in the buffer. -/
def chooseTag (buf : Txt) : Option (Txt × Txt) :=
  TAGS.find? fun tg => (splitFirst tg.1 buf).isSome

/-- Rolling state of one in-flight assistant message: the accumulated text
buffer, the reasoning texts delivered so far, and whether the close tag has
already been handled. -/
structure SubState where
  buffer : Txt := []
  reasoningEmits : List Txt := []
  closed : Bool := false
deriving DecidableEq

/-- Process one streamed text delta: extend the buffer; while an open
reasoning tag is unresolved, stream the tagged content so far through the
reasoning callback; when the close tag (first) appears, deliver the final
wrapped reasoning text once. -/
def stepDelta (st : SubState) (d : Txt) : SubState :=
  match chooseTag (st.buffer ++ d) with
  | none => { st with buffer := st.buffer ++ d }
  | some tg =>
    match splitFirst tg.1 (st.buffer ++ d) with
    | none => { st with buffer := st.buffer ++ d }
    | some (_, rest) =>
      match splitFirst tg.2 rest with
      | some (inner0, _) =>
        if st.closed then { st with buffer := st.buffer ++ d }
        else
          { buffer := st.buffer ++ d, closed := true,
            reasoningEmits := st.reasoningEmits ++ [wrapReasoning (trimC inner0)] }
      | none =>
        { st with buffer := st.buffer ++ d,
                  reasoningEmits := st.reasoningEmits ++ [wrapReasoning (trimC rest)] }

/-- Structured content segments of an assistant message after the rewrite. -/
inductive Segment
  | thinking (s : Txt)
  | text (s : Txt)
deriving DecidableEq

/-- Finalize an assistant message from its full buffered text: the visible
text has the tagged span and the tags removed, and the structured content is
rewritten into a thinking segment followed by a text segment. -/
def finishMessage (buf : Txt) : Txt × List Segment :=
  match chooseTag buf with
  | some tg =>
    match splitFirst tg.1 buf with
    | some (pre, rest) =>
      match splitFirst tg.2 rest with
      | some (inner0, post) =>
        (trimC (pre ++ post),
          [Segment.thinking (trimC inner0), Segment.text (trimC (pre ++ post))])
      | none => (trimC pre, [Segment.text (trimC pre)])
    | none => (trimC buf, [Segment.text (trimC buf)])
  | none => (trimC buf, [Segment.text (trimC buf)])

/-- Concatenation of a sequence of text deltas. -/
def joinL (ds : List Txt) : Txt := ds.foldr (· ++ ·) []

/-- Result of one assistant message processed as a sequence of deltas. -/
structure SubscribeResult where
  visible : Txt
  content : List Segment
  lastReasoning : Option Txt
deriving DecidableEq

/-- Modelled from the spec: process the deltas of one assistant message
through the rolling buffer and finalize at message end. -/
def subscribeEmbeddedPiSession (ds : List Txt) : SubscribeResult :=
  { visible := (finishMessage (ds.foldl stepDelta {}).buffer).1,
    content := (finishMessage (ds.foldl stepDelta {}).buffer).2,
    lastReasoning := (ds.foldl stepDelta {}).reasoningEmits.getLast? }

/-! ### Tool-result tracking (`getLastToolError`) -/

/-- One completed tool invocation, with its arguments as key/value pairs. -/
structure ToolCall where
  toolName : String
  args : List (String × String) := []
  isError : Bool := false
deriving DecidableEq

/-- Modelled from the spec: the semantically significant argument keys of a
tool (target path or session key and the mutation-relevant `model` argument —
not incidental ones such as the written content). -/
def significantKeys (tool : String) : List String :=
  if tool = "session_status" then ["sessionKey", "model"]
  else ["path", "file_path", "sessionKey", "target", "url"]

/-- The action signature: tool name plus its semantically significant
arguments. -/
def sigOf (c : ToolCall) : String × List (String × String) :=
  (c.toolName, c.args.filter fun kv => decide (kv.1 ∈ significantKeys c.toolName))

/-- Modelled from the spec: whether a tool invocation is mutating (failure
tracking applies only to mutating tools). -/
def isMutating (c : ToolCall) : Bool :=
  decide (c.toolName ∈ ["write", "edit", "apply_patch", "exec", "move", "remove"])
    || (decide (c.toolName = "session_status") && c.args.any fun kv => decide (kv.1 = "model"))

/-- The tracked "last unresolved failure". -/
structure ToolErrorInfo where
  toolName : String
  sig : String × List (String × String)
deriving DecidableEq

/-- One step of failure tracking: a mutating failure overwrites the tracked
failure; a success clears it only when its action signature matches
exactly. -/
def stepTool (cur : Option ToolErrorInfo) (c : ToolCall) : Option ToolErrorInfo :=
  if c.isError then
    if isMutating c then some { toolName := c.toolName, sig := sigOf c } else cur
  else
    match cur with
    | some info => if sigOf c = info.sig then none else some info
    | none => none

/-- Modelled from the spec: `getLastToolError()` over a completed sequence of
tool invocations. -/
def getLastToolError (calls : List ToolCall) : Option ToolErrorInfo :=
  calls.foldl stepTool none

/-! ## Shared helper lemmas -/

theorem leadsWith_iff (p l : Txt) : leadsWith p l = true ↔ ∃ t, l = p ++ t := by
  induction p generalizing l with
  | nil => simp [leadsWith]
  | cons a as ih =>
    cases l with
    | nil => simp [leadsWith]
    | cons b bs =>
      simp only [leadsWith, Bool.and_eq_true, decide_eq_true_eq, ih, List.cons_append,
        List.cons.injEq]
      constructor
      · rintro ⟨rfl, t, rfl⟩; exact ⟨t, rfl, rfl⟩
      · rintro ⟨t, rfl, rfl⟩; exact ⟨rfl, t, rfl⟩

theorem leadsWith_append (p t : Txt) : leadsWith p (p ++ t) = true :=
  (leadsWith_iff p (p ++ t)).mpr ⟨t, rfl⟩

theorem leadsWith_self (p : Txt) : leadsWith p p = true := by
  simpa using leadsWith_append p []

theorem splitFirst_sound {pat l a b : Txt} (h : splitFirst pat l = some (a, b)) :
    l = a ++ pat ++ b := by
  induction l generalizing a with
  | nil => simp [splitFirst] at h
  | cons c rest ih =>
    rw [splitFirst] at h
    by_cases hl : leadsWith pat (c :: rest) = true
    · rw [if_pos hl] at h
      obtain ⟨t, ht⟩ := (leadsWith_iff _ _).mp hl
      injection h with h'
      injection h' with ha hb
      subst ha
      subst hb
      rw [ht, List.nil_append, List.drop_left]
    · rw [if_neg hl] at h
      cases hrec : splitFirst pat rest with
      | none => rw [hrec] at h; exact absurd h (by simp)
      | some p =>
        obtain ⟨a', b'⟩ := p
        rw [hrec] at h
        injection h with h'
        injection h' with ha hb
        subst hb
        have := ih hrec
        subst ha
        simp [this]

theorem splitFirst_isSome_of_decomp {pat : Txt} (hne : pat ≠ []) :
    ∀ {l a b : Txt}, l = a ++ pat ++ b → (splitFirst pat l).isSome = true := by
  intro l a b hl
  induction a generalizing l with
  | nil =>
    subst hl
    simp only [List.nil_append]
    cases hp : pat ++ b with
    | nil => exact absurd (List.append_eq_nil.mp hp).1 hne
    | cons c rest =>
      rw [splitFirst.eq_def]
      simp only [← hp]
      rw [if_pos (leadsWith_append pat b)]
      simp
  | cons x xs ih =>
    subst hl
    rw [splitFirst.eq_def]
    by_cases hl2 : leadsWith pat (x :: (xs ++ pat ++ b)) = true
    · simp only [List.cons_append, List.append_assoc] at hl2 ⊢
      rw [if_pos hl2]
      simp
    · simp only [List.cons_append, List.append_assoc] at hl2 ⊢
      rw [if_neg hl2]
      have := ih (l := xs ++ pat ++ b) (by simp)
      cases hrec : splitFirst pat (xs ++ (pat ++ b)) with
      | none => rw [List.append_assoc] at this; rw [hrec] at this; simp at this
      | some p => simp

theorem Store.find_set_self (s : Store) (k : String) (e : SessionEntry) :
    (s.set k e).find k = some e := by
  induction s with
  | nil => simp [Store.set, Store.find]
  | cons p rest ih =>
    obtain ⟨k', e'⟩ := p
    by_cases h : k' = k
    · simp [Store.set, Store.find, h]
    · simp [Store.set, Store.find, h, ih]

theorem Store.find_set_other (s : Store) (k k' : String) (e : SessionEntry) (h : k ≠ k') :
    (s.set k e).find k' = s.find k' := by
  induction s with
  | nil => simp [Store.set, Store.find, h]
  | cons p rest ih =>
    obtain ⟨k0, e0⟩ := p
    by_cases h0 : k0 = k
    · subst h0
      simp [Store.set, Store.find, h, ih]
    · simp only [Store.set, if_neg h0, find]
      by_cases h1 : k0 = k'
      · simp [h1]
      · simp [h1, ih]

theorem Store.find_remove_self (s : Store) (k : String) : (s.remove k).find k = none := by
  induction s with
  | nil => simp [Store.remove, find]
  | cons p rest ih =>
    obtain ⟨k', e'⟩ := p
    by_cases h : k' = k
    · simp [Store.remove, h, ih]
    · simp [Store.remove, find, h, ih]


theorem containsSeq_of_decomp {pat a b l : Txt} (hne : pat ≠ [])
    (h : l = a ++ pat ++ b) : containsSeq pat l = true := by
  unfold containsSeq
  exact splitFirst_isSome_of_decomp hne h

theorem dropWhile_append_of_ne {p : Char → Bool} {x : Txt} (y : Txt)
    (h : x.dropWhile p ≠ []) : (x ++ y).dropWhile p = x.dropWhile p ++ y := by
  induction x with
  | nil => exact absurd rfl h
  | cons c cs ih =>
    by_cases hc : p c
    · rw [List.dropWhile_cons, if_pos hc] at h
      simp only [List.cons_append, List.dropWhile_cons, if_pos hc]
      exact ih h
    · simp [List.dropWhile_cons, hc]

theorem trimR_append_of_ne {a b : Txt} (h : trimR b ≠ []) :
    trimR (a ++ b) = a ++ trimR b := by
  have hb : b.reverse.dropWhile isWS ≠ [] := by
    intro hg
    exact h (by unfold trimR; rw [hg]; rfl)
  unfold trimR
  rw [List.reverse_append, dropWhile_append_of_ne _ hb, List.reverse_append,
    List.reverse_reverse]

theorem trimL_cons_of_ws {c : Char} {l : Txt} (h : isWS c = true) :
    trimL (c :: l) = trimL l := by
  simp [trimL, List.dropWhile_cons, h]

theorem trimL_eq_self_append {a : Txt} (x : Txt) (ha : trimL a = a) (hne : a ≠ []) :
    trimL (a ++ x) = a ++ x := by
  cases a with
  | nil => exact absurd rfl hne
  | cons c cs =>
    unfold trimL at *
    by_cases hc : isWS c
    · exfalso
      rw [List.dropWhile_cons, if_pos hc] at ha
      have hlen := congrArg List.length ha
      have := (List.dropWhile_sublist (l := cs) (p := isWS)).length_le
      simp only [List.length_cons] at hlen
      omega
    · simp [List.dropWhile_cons, hc]

/-! ## Claim theorems -/

/-- Claim C1: for every inbound message whose trimmed, timestamp-stripped body
is exactly a stop-word, `getReplyFromConfig` returns the fixed aborted reply
"⚙️ Agent was aborted." and the agent capability is never invoked. -/
theorem stopword_aborts_without_agent (ctx : ReplyCtx) (store : Store) (agentText : Txt)
    (h : processedBody ctx.body ∈ STOP_WORDS) :
    (getReplyFromConfig ctx store agentText).reply = some abortedReplyText ∧
      (getReplyFromConfig ctx store agentText).agentInvoked = false := by
  unfold getReplyFromConfig
  rw [if_pos h]
  split <;> exact ⟨rfl, rfl⟩

/-- Witness for C1: a timestamp-bracketed "stop" body and a bare "/stop" body
both short-circuit to the aborted reply without an agent run. -/
theorem stopword_aborts_without_agent_witness :
    ((getReplyFromConfig { body := "[Dec 5 10:00] stop".toList, senderKey := "main" }
        [] "unused".toList).reply = some abortedReplyText ∧
      (getReplyFromConfig { body := "[Dec 5 10:00] stop".toList, senderKey := "main" }
        [] "unused".toList).agentInvoked = false) ∧
    ((getReplyFromConfig { body := "/stop".toList, senderKey := "main" }
        [] "unused".toList).reply = some abortedReplyText ∧
      (getReplyFromConfig { body := "/stop".toList, senderKey := "main" }
        [] "unused".toList).agentInvoked = false) :=
  ⟨stopword_aborts_without_agent _ _ _ (by decide),
   stopword_aborts_without_agent _ _ _ (by decide)⟩

/-- Claim C8: a `/stop` directed at another session key via an explicit target
reference aborts the run bound to the target key's `sessionId` and sets
`abortedLastRun = true` on the target key's entry, while the requesting key's
session state is left unchanged. -/
theorem stop_directed_at_target_key (ctx : ReplyCtx) (store : Store) (agentText : Txt)
    (tk : String) (e : SessionEntry)
    (hb : processedBody ctx.body ∈ STOP_WORDS)
    (ht : ctx.commandTargetSessionKey = some tk)
    (hne : tk ≠ ctx.senderKey)
    (hfind : store.find tk = some e) :
    (getReplyFromConfig ctx store agentText).reply = some abortedReplyText ∧
      (getReplyFromConfig ctx store agentText).abortCalls = [e.sessionId] ∧
      (getReplyFromConfig ctx store agentText).store.find tk =
        some { e with abortedLastRun := true } ∧
      (getReplyFromConfig ctx store agentText).store.find ctx.senderKey =
        store.find ctx.senderKey := by
  unfold getReplyFromConfig
  rw [if_pos hb, ht]
  simp only [Option.getD_some, hfind, true_and, and_true]
  exact ⟨Store.find_set_self store tk _, Store.find_set_other store tk _ _ hne⟩

/-- Witness for C8: a native `/stop` from the requesting key
"telegram:slash:111" targeted at "agent:main:telegram:group:123" aborts the
target's session id, flags the target entry, and leaves the requester's
entry alone. -/
theorem stop_directed_at_target_key_witness :
    (getReplyFromConfig
        { body := "/stop".toList, senderKey := "telegram:slash:111",
          commandTargetSessionKey := some "agent:main:telegram:group:123" }
        [("agent:main:telegram:group:123", { sessionId := "session-target" }),
         ("telegram:slash:111", { sessionId := "session-req" })]
        "unused".toList).abortCalls = ["session-target"] ∧
    (getReplyFromConfig
        { body := "/stop".toList, senderKey := "telegram:slash:111",
          commandTargetSessionKey := some "agent:main:telegram:group:123" }
        [("agent:main:telegram:group:123", { sessionId := "session-target" }),
         ("telegram:slash:111", { sessionId := "session-req" })]
        "unused".toList).store.find "agent:main:telegram:group:123" =
      some { sessionId := "session-target", abortedLastRun := true } ∧
    (getReplyFromConfig
        { body := "/stop".toList, senderKey := "telegram:slash:111",
          commandTargetSessionKey := some "agent:main:telegram:group:123" }
        [("agent:main:telegram:group:123", { sessionId := "session-target" }),
         ("telegram:slash:111", { sessionId := "session-req" })]
        "unused".toList).store.find "telegram:slash:111" =
      some { sessionId := "session-req" } := by
  have h := stop_directed_at_target_key
    { body := "/stop".toList, senderKey := "telegram:slash:111",
      commandTargetSessionKey := some "agent:main:telegram:group:123" }
    [("agent:main:telegram:group:123", { sessionId := "session-target" }),
     ("telegram:slash:111", { sessionId := "session-req" })]
    "unused".toList
    "agent:main:telegram:group:123" { sessionId := "session-target" }
    (by decide) rfl (by decide) (by decide)
  refine ⟨h.2.1, h.2.2.1, ?_⟩
  rw [h.2.2.2]
  decide

/-- Claim C10: a slash-command token inside a longer message body (not the
entire trimmed body) is not treated as a control directive: the dispatch
invokes the agent with the message instead of producing a command reply or a
rejection, and the store is untouched. -/
theorem inline_slash_not_a_command (ctx : ReplyCtx) (store : Store) (agentText : Txt)
    (h1 : processedBody ctx.body ∉ STOP_WORDS)
    (h2 : (processedBody ctx.body).head? ≠ some '/') :
    (getReplyFromConfig ctx store agentText).agentInvoked = true ∧
      (getReplyFromConfig ctx store agentText).agentPrompt = some ctx.body ∧
      (getReplyFromConfig ctx store agentText).reply =
        processAgentText ctx.isHeartbeat agentText ∧
      (getReplyFromConfig ctx store agentText).store = store := by
  unfold getReplyFromConfig
  rw [if_neg h1, if_neg h2]
  exact ⟨rfl, rfl, rfl, rfl⟩

/-- Witness for C10: "please /status now" and an unapproved sender's
"please /elevated on now" both go to the agent (which replies "ok") rather
than to the command handler. -/
theorem inline_slash_not_a_command_witness :
    ((getReplyFromConfig { body := "please /status now".toList, senderKey := "main" }
        [] "ok".toList).agentInvoked = true ∧
      (getReplyFromConfig { body := "please /status now".toList, senderKey := "main" }
        [] "ok".toList).agentPrompt = some "please /status now".toList ∧
      (getReplyFromConfig { body := "please /status now".toList, senderKey := "main" }
        [] "ok".toList).reply = processAgentText false "ok".toList ∧
      (getReplyFromConfig { body := "please /status now".toList, senderKey := "main" }
        [] "ok".toList).store = []) ∧
    (getReplyFromConfig { body := "please /elevated on now".toList, senderKey := "main" }
        [] "ok".toList).agentInvoked = true ∧
    (getReplyFromConfig { body := "please /status now".toList, senderKey := "main" }
        [] "ok".toList).reply = some "ok".toList :=
  ⟨inline_slash_not_a_command _ _ _ (by decide) (by decide),
   (inline_slash_not_a_command
     { body := "please /elevated on now".toList, senderKey := "main" }
     [] "ok".toList (by decide) (by decide)).1,
   by decide⟩

theorem stripHeartbeatText_of_exact {t : Txt} (ht : trimC t = HEARTBEAT_TOKEN) :
    stripHeartbeatText t = [] := by
  unfold stripHeartbeatText
  rw [ht]
  decide

theorem stripHeartbeatText_edge {r : Txt}
    (hr1 : trimL r = r) (hr2 : trimR r = r) (hr3 : r ≠ [])
    (hr4 : trailsWith HEARTBEAT_TOKEN r = false) :
    stripHeartbeatText (HEARTBEAT_TOKEN ++ ' ' :: r) = r := by
  have hrne : trimR r ≠ [] := by rw [hr2]; exact hr3
  have hsplit : HEARTBEAT_TOKEN ++ ' ' :: r = (HEARTBEAT_TOKEN ++ [' ']) ++ r := by
    simp
  have htrimC : trimC (HEARTBEAT_TOKEN ++ ' ' :: r) = HEARTBEAT_TOKEN ++ ' ' :: r := by
    unfold trimC
    rw [hsplit, trimR_append_of_ne hrne, hr2, ← hsplit]
    exact trimL_eq_self_append _ (by decide) (by decide)
  have htrimC2 : trimC (' ' :: r) = r := by
    unfold trimC
    rw [show (' ' :: r) = [' '] ++ r from rfl, trimR_append_of_ne hrne, hr2,
      show ([' '] ++ r) = ' ' :: r from rfl, trimL_cons_of_ws (by decide), hr1]
  unfold stripHeartbeatText dropLeadToken dropTailToken
  rw [htrimC, if_pos (leadsWith_append _ _), List.drop_left, htrimC2]
  rw [if_neg (by rw [hr4]; exact Bool.false_ne_true)]

/-- Claim C7: outside heartbeat context, an agent reply whose text is exactly
the `HEARTBEAT_OK` sentinel is suppressed entirely (`getReplyFromConfig`
returns no reply payload even though the agent ran), while a sentinel
appearing only as an edge token attached to real content is stripped and the
remainder is delivered. -/
theorem heartbeat_sentinel_stripping
    (ctx₁ ctx₂ : ReplyCtx) (store₁ store₂ : Store) (t r : Txt)
    (hb₁ : processedBody ctx₁.body ∉ STOP_WORDS)
    (hs₁ : (processedBody ctx₁.body).head? ≠ some '/')
    (hh₁ : ctx₁.isHeartbeat = false)
    (ht : trimC t = HEARTBEAT_TOKEN)
    (hb₂ : processedBody ctx₂.body ∉ STOP_WORDS)
    (hs₂ : (processedBody ctx₂.body).head? ≠ some '/')
    (hh₂ : ctx₂.isHeartbeat = false)
    (hr1 : trimL r = r) (hr2 : trimR r = r) (hr3 : r ≠ [])
    (hr4 : trailsWith HEARTBEAT_TOKEN r = false) :
    (getReplyFromConfig ctx₁ store₁ t).reply = none ∧
      (getReplyFromConfig ctx₁ store₁ t).agentInvoked = true ∧
      (getReplyFromConfig ctx₂ store₂ (HEARTBEAT_TOKEN ++ ' ' :: r)).reply = some r ∧
      (getReplyFromConfig ctx₂ store₂ (HEARTBEAT_TOKEN ++ ' ' :: r)).agentInvoked = true := by
  refine ⟨?_, ?_, ?_, ?_⟩
  · unfold getReplyFromConfig
    rw [if_neg hb₁, if_neg hs₁]
    show processAgentText ctx₁.isHeartbeat t = none
    rw [hh₁]
    unfold processAgentText
    rw [if_neg (by exact Bool.false_ne_true), stripHeartbeatText_of_exact ht]
    rfl
  · unfold getReplyFromConfig
    rw [if_neg hb₁, if_neg hs₁]
  · unfold getReplyFromConfig
    rw [if_neg hb₂, if_neg hs₂]
    show processAgentText ctx₂.isHeartbeat _ = some r
    rw [hh₂]
    unfold processAgentText
    rw [if_neg (by exact Bool.false_ne_true), stripHeartbeatText_edge hr1 hr2 hr3 hr4]
    rw [if_neg (by cases r with | nil => exact absurd rfl hr3 | cons a l => simp)]
  · unfold getReplyFromConfig
    rw [if_neg hb₂, if_neg hs₂]

/-- Witness for C7: with body "hello" (not a trigger), an agent reply of
exactly "HEARTBEAT_OK" yields no payload, and "HEARTBEAT_OK hello" yields
"hello". -/
theorem heartbeat_sentinel_stripping_witness :
    (getReplyFromConfig { body := "hello".toList, senderKey := "main" }
        [] "HEARTBEAT_OK".toList).reply = none ∧
      (getReplyFromConfig { body := "hello".toList, senderKey := "main" }
        [] "HEARTBEAT_OK".toList).agentInvoked = true ∧
      (getReplyFromConfig { body := "hello".toList, senderKey := "main" }
        [] ("HEARTBEAT_OK".toList ++ ' ' :: "hello".toList)).reply =
        some "hello".toList ∧
      (getReplyFromConfig { body := "hello".toList, senderKey := "main" }
        [] ("HEARTBEAT_OK".toList ++ ' ' :: "hello".toList)).agentInvoked = true :=
  heartbeat_sentinel_stripping
    { body := "hello".toList, senderKey := "main" }
    { body := "hello".toList, senderKey := "main" }
    [] [] "HEARTBEAT_OK".toList "hello".toList
    (by decide) (by decide) rfl (by decide)
    (by decide) (by decide) rfl
    (by decide) (by decide) (by decide) (by decide)

/-- Claim C2: with `memoryFlushCompactionCount < compactionCount` (unset
counting as zero) and flush enabled on an embedded backend, `runReplyAgent`
issues exactly two agent turns — a flush turn whose prompt contains the fixed
phrase "Pre-compaction memory flush.", the current time, and a dated
`memory/YYYY-MM-DD.md` path, then the user's prompt — and afterwards
`memoryFlushCompactionCount` equals `compactionCount`; with flush disabled in
config, or with `memoryFlushCompactionCount` already equal to
`compactionCount`, exactly one turn (the user prompt) runs. -/
theorem memory_flush_turns
    (cfg₁ cfg₂ cfg₃ : RunnerConfig) (key₁ key₂ key₃ : String)
    (e₁ e₂ e₃ : SessionEntry) (inp₁ inp₂ inp₃ : RunnerInput)
    (st₁ st₂ st₃ : RunnerState) (t₁ : Txt)
    (hb : cfg₁.backend = Backend.embedded)
    (hen : cfg₁.memoryFlushEnabled = true)
    (hlt : mfccVal e₁ < e₁.compactionCount)
    (hok : inp₁.mainResult = Except.ok t₁)
    (hnow : inp₁.now ≠ [])
    (hdis : cfg₂.memoryFlushEnabled = false)
    (heq : mfccVal e₃ = e₃.compactionCount) :
    (runReplyAgent cfg₁ key₁ e₁ inp₁ st₁).prompts =
        [flushPromptTxt inp₁.now inp₁.today, inp₁.userPrompt] ∧
      containsSeq "Pre-compaction memory flush.".toList
        (flushPromptTxt inp₁.now inp₁.today) = true ∧
      containsSeq inp₁.now (flushPromptTxt inp₁.now inp₁.today) = true ∧
      containsSeq ("memory/".toList ++ inp₁.today ++ ".md".toList)
        (flushPromptTxt inp₁.now inp₁.today) = true ∧
      (∃ e', (runReplyAgent cfg₁ key₁ e₁ inp₁ st₁).state.mem.find key₁ = some e' ∧
        e'.memoryFlushCompactionCount = some e'.compactionCount) ∧
      (runReplyAgent cfg₂ key₂ e₂ inp₂ st₂).prompts = [inp₂.userPrompt] ∧
      (runReplyAgent cfg₃ key₃ e₃ inp₃ st₃).prompts = [inp₃.userPrompt] := by
  have hsf : shouldFlush cfg₁ e₁ = true := by
    unfold shouldFlush
    rw [hb, hen]
    simp [hlt]
  have hsf₂ : shouldFlush cfg₂ e₂ = false := by
    unfold shouldFlush
    rw [hdis]
    simp
  have hsf₃ : shouldFlush cfg₃ e₃ = false := by
    unfold shouldFlush
    simp [heq]
  refine ⟨?_, ?_, ?_, ?_, ?_, ?_, ?_⟩
  · simp [runReplyAgent, hsf, hok]
  · refine containsSeq_of_decomp (a := [])
      (b := " Current time: ".toList ++ inp₁.now ++
        (". Write lasting notes to memory/".toList ++ (inp₁.today ++
          ".md before compaction runs.".toList))) (by decide) ?_
    unfold flushPromptTxt
    rw [show "Pre-compaction memory flush. Current time: ".toList =
      "Pre-compaction memory flush.".toList ++ " Current time: ".toList from by decide]
    simp [List.append_assoc]
  · exact containsSeq_of_decomp
      (a := "Pre-compaction memory flush. Current time: ".toList)
      (b := ". Write lasting notes to memory/".toList ++ (inp₁.today ++
        ".md before compaction runs.".toList)) hnow rfl
  · refine containsSeq_of_decomp
      (a := "Pre-compaction memory flush. Current time: ".toList ++ inp₁.now ++
        ". Write lasting notes to ".toList)
      (b := " before compaction runs.".toList) (by simp) ?_
    unfold flushPromptTxt
    rw [show ". Write lasting notes to memory/".toList =
        ". Write lasting notes to ".toList ++ "memory/".toList from by decide,
      show ".md before compaction runs.".toList =
        ".md".toList ++ " before compaction runs.".toList from by decide]
    simp [List.append_assoc]
  · refine ⟨{ applyFlush e₁ inp₁.flushCompactionEnds inp₁.nowMs with
      updatedAt := inp₁.nowMs }, ?_, ?_⟩
    · simp only [runReplyAgent, hsf, if_true, hok]
      exact Store.find_set_self _ _ _
    · simp [applyFlush]
  · cases hm : inp₂.mainResult <;> simp [runReplyAgent, hsf₂, hm]
  · cases hm : inp₃.mainResult <;> simp [runReplyAgent, hsf₃, hm]

/-- Witness for C2: a session with `compactionCount = 1` and no flush yet runs
the flush turn then "hello" and records `memoryFlushCompactionCount = 1`;
with flush disabled, or with `memoryFlushCompactionCount = 2` at
`compactionCount = 2`, only "hello" runs. -/
theorem memory_flush_turns_witness :
    (runReplyAgent {} "main" { sessionId := "session", compactionCount := 1 }
        { userPrompt := "hello".toList, now := "12:00".toList,
          today := "2026-10-12".toList, mainResult := Except.ok "ok".toList }
        { mem := [], persisted := [] }).prompts =
      [flushPromptTxt "12:00".toList "2026-10-12".toList, "hello".toList] ∧
    containsSeq "Pre-compaction memory flush.".toList
      (flushPromptTxt "12:00".toList "2026-10-12".toList) = true ∧
    containsSeq "12:00".toList
      (flushPromptTxt "12:00".toList "2026-10-12".toList) = true ∧
    containsSeq "memory/2026-10-12.md".toList
      (flushPromptTxt "12:00".toList "2026-10-12".toList) = true ∧
    (∃ e', (runReplyAgent {} "main" { sessionId := "session", compactionCount := 1 }
        { userPrompt := "hello".toList, now := "12:00".toList,
          today := "2026-10-12".toList, mainResult := Except.ok "ok".toList }
        { mem := [], persisted := [] }).state.mem.find "main" = some e' ∧
      e'.memoryFlushCompactionCount = some e'.compactionCount) ∧
    (runReplyAgent { memoryFlushEnabled := false } "main"
        { sessionId := "session", compactionCount := 1 }
        { userPrompt := "hello".toList, mainResult := Except.ok "ok".toList }
        { mem := [], persisted := [] }).prompts = ["hello".toList] ∧
    (runReplyAgent {} "main"
        { sessionId := "session", compactionCount := 2,
          memoryFlushCompactionCount := some 2 }
        { userPrompt := "hello".toList, mainResult := Except.ok "ok".toList }
        { mem := [], persisted := [] }).prompts = ["hello".toList] := by
  have h := memory_flush_turns
    {} { memoryFlushEnabled := false } {} "main" "main" "main"
    { sessionId := "session", compactionCount := 1 }
    { sessionId := "session", compactionCount := 1 }
    { sessionId := "session", compactionCount := 2,
      memoryFlushCompactionCount := some 2 }
    { userPrompt := "hello".toList, now := "12:00".toList,
      today := "2026-10-12".toList, mainResult := Except.ok "ok".toList }
    { userPrompt := "hello".toList, mainResult := Except.ok "ok".toList }
    { userPrompt := "hello".toList, mainResult := Except.ok "ok".toList }
    { mem := [], persisted := [] } { mem := [], persisted := [] }
    { mem := [], persisted := [] } "ok".toList
    rfl rfl (by decide) rfl (by decide) rfl (by decide)
  refine ⟨h.1, h.2.1, h.2.2.1, ?_, h.2.2.2.2.1, h.2.2.2.2.2.1, h.2.2.2.2.2.2⟩
  have h4 := h.2.2.2.1
  rw [show "memory/2026-10-12.md".toList =
    "memory/".toList ++ "2026-10-12".toList ++ ".md".toList from by decide]
  exact h4

/-- Claim C3: when an agent run fails with the recognized backend-specific
corruption signature (the Gemini "function call turn comes immediately after a
user turn ..." pattern), `runReplyAgent` returns a reply containing "Session
history was corrupted", the session entry is removed from both the in-memory
and the persisted store, and the session transcript is deleted (hard
reset). -/
theorem corrupted_session_hard_reset
    (cfg : RunnerConfig) (key : String) (e : SessionEntry) (inp : RunnerInput)
    (st : RunnerState) (msg : Txt)
    (herr : inp.mainResult = Except.error msg)
    (hsig : containsSeq corruptionSig msg = true)
    (h1 : containsSeq compactionSig msg = false)
    (h2 : containsSeq overflowSigA msg = false)
    (h3 : containsSeq overflowSigB msg = false)
    (h4 : containsSeq overflowSigC msg = false)
    (h5 : containsSeq roleSigA msg = false)
    (h6 : containsSeq roleSigB msg = false) :
    (runReplyAgent cfg key e inp st).reply = corruptedReply ∧
      containsSeq "Session history was corrupted".toList
        (runReplyAgent cfg key e inp st).reply = true ∧
      (runReplyAgent cfg key e inp st).state.mem.find key = none ∧
      (runReplyAgent cfg key e inp st).state.persisted.find key = none ∧
      (runReplyAgent cfg key e inp st).state.transcriptExists = false := by
  have hcl : classifyErr msg = ErrCategory.corruptedSession := by
    unfold classifyErr
    rw [h1, h2, h3, h4, h5, h6, hsig]
    rfl
  cases hsf : shouldFlush cfg e <;>
    simp [runReplyAgent, hsf, herr, handleRunError, hcl, Store.find_remove_self] <;>
    decide

/-- Witness for C3: the Gemini corruption message removes the entry from both
stores, deletes the transcript, and replies with the corruption notice. -/
theorem corrupted_session_hard_reset_witness :
    (runReplyAgent {} "main" { sessionId := "session-corrupt" }
        { userPrompt := "hello".toList,
          mainResult := Except.error ("function call turn comes immediately after a user turn or after a function response turn".toList) }
        { mem := [("main", { sessionId := "session-corrupt" })],
          persisted := [("main", { sessionId := "session-corrupt" })] }).reply =
      corruptedReply ∧
    containsSeq "Session history was corrupted".toList
      (runReplyAgent {} "main" { sessionId := "session-corrupt" }
        { userPrompt := "hello".toList,
          mainResult := Except.error ("function call turn comes immediately after a user turn or after a function response turn".toList) }
        { mem := [("main", { sessionId := "session-corrupt" })],
          persisted := [("main", { sessionId := "session-corrupt" })] }).reply = true ∧
    (runReplyAgent {} "main" { sessionId := "session-corrupt" }
        { userPrompt := "hello".toList,
          mainResult := Except.error ("function call turn comes immediately after a user turn or after a function response turn".toList) }
        { mem := [("main", { sessionId := "session-corrupt" })],
          persisted := [("main", { sessionId := "session-corrupt" })] }).state.mem.find
      "main" = none ∧
    (runReplyAgent {} "main" { sessionId := "session-corrupt" }
        { userPrompt := "hello".toList,
          mainResult := Except.error ("function call turn comes immediately after a user turn or after a function response turn".toList) }
        { mem := [("main", { sessionId := "session-corrupt" })],
          persisted := [("main", { sessionId := "session-corrupt" })] }).state.persisted.find
      "main" = none ∧
    (runReplyAgent {} "main" { sessionId := "session-corrupt" }
        { userPrompt := "hello".toList,
          mainResult := Except.error ("function call turn comes immediately after a user turn or after a function response turn".toList) }
        { mem := [("main", { sessionId := "session-corrupt" })],
          persisted := [("main", { sessionId := "session-corrupt" })] }).state.transcriptExists =
      false :=
  corrupted_session_hard_reset {} "main" { sessionId := "session-corrupt" }
    { userPrompt := "hello".toList,
      mainResult := Except.error ("function call turn comes immediately after a user turn or after a function response turn".toList) }
    { mem := [("main", { sessionId := "session-corrupt" })],
      persisted := [("main", { sessionId := "session-corrupt" })] }
    ("function call turn comes immediately after a user turn or after a function response turn".toList)
    rfl (by decide) (by decide) (by decide) (by decide) (by decide) (by decide)
    (by decide)

/-- Claim C4: when an agent run throws an exception matching none of the
recognized categories, `runReplyAgent` returns a reply containing "Agent
failed before reply" with the original message, and the session state is left
untouched: the entry keeps its `sessionId`, remains in both stores, and the
transcript still exists. -/
theorem generic_failure_no_reset
    (cfg : RunnerConfig) (key : String) (e : SessionEntry) (inp : RunnerInput)
    (st : RunnerState) (msg : Txt)
    (herr : inp.mainResult = Except.error msg)
    (hmsg : msg ≠ [])
    (h1 : containsSeq compactionSig msg = false)
    (h2 : containsSeq overflowSigA msg = false)
    (h3 : containsSeq overflowSigB msg = false)
    (h4 : containsSeq overflowSigC msg = false)
    (h5 : containsSeq roleSigA msg = false)
    (h6 : containsSeq roleSigB msg = false)
    (h7 : containsSeq corruptionSig msg = false)
    (h8 : containsSeq transportSig msg = false)
    (hnf : shouldFlush cfg e = false)
    (hmb : st.mem.find key = some e)
    (hpb : st.persisted.find key = some e)
    (htr : st.transcriptExists = true) :
    (runReplyAgent cfg key e inp st).reply = genericReply msg ∧
      containsSeq "Agent failed before reply".toList
        (runReplyAgent cfg key e inp st).reply = true ∧
      containsSeq msg (runReplyAgent cfg key e inp st).reply = true ∧
      (runReplyAgent cfg key e inp st).state = st ∧
      (runReplyAgent cfg key e inp st).state.mem.find key = some e ∧
      (runReplyAgent cfg key e inp st).state.persisted.find key = some e ∧
      (runReplyAgent cfg key e inp st).state.transcriptExists = true := by
  have hcl : classifyErr msg = ErrCategory.generic := by
    unfold classifyErr
    rw [h1, h2, h3, h4, h5, h6, h7, h8]
    rfl
  have hrun : runReplyAgent cfg key e inp st =
      { prompts := [inp.userPrompt], reply := genericReply msg, state := st } := by
    simp [runReplyAgent, hnf, herr, handleRunError, hcl]
  refine ⟨by rw [hrun], ?_, ?_, by rw [hrun], by rw [hrun]; exact hmb,
    by rw [hrun]; exact hpb, by rw [hrun]; exact htr⟩
  · rw [hrun]
    refine containsSeq_of_decomp (a := "⚠️ ".toList)
      (b := ": ".toList ++ (msg ++ genericReplyTail)) (by decide) ?_
    show genericReply msg = _
    unfold genericReply
    rw [show genericReplyLead = "⚠️ ".toList ++ "Agent failed before reply".toList
      ++ ": ".toList from by decide]
    simp [List.append_assoc]
  · rw [hrun]
    exact containsSeq_of_decomp (a := genericReplyLead) (b := genericReplyTail) hmsg rfl

/-- Witness for C4: the unrecognized failure "INVALID_ARGUMENT: some other
failure" replies with the generic notice and leaves entry, stores and
transcript untouched. -/
theorem generic_failure_no_reset_witness :
    (runReplyAgent {} "main" { sessionId := "session-ok" }
        { userPrompt := "hello".toList,
          mainResult := Except.error "INVALID_ARGUMENT: some other failure".toList }
        { mem := [("main", { sessionId := "session-ok" })],
          persisted := [("main", { sessionId := "session-ok" })] }).reply =
      genericReply "INVALID_ARGUMENT: some other failure".toList ∧
    containsSeq "Agent failed before reply".toList
      (runReplyAgent {} "main" { sessionId := "session-ok" }
        { userPrompt := "hello".toList,
          mainResult := Except.error "INVALID_ARGUMENT: some other failure".toList }
        { mem := [("main", { sessionId := "session-ok" })],
          persisted := [("main", { sessionId := "session-ok" })] }).reply = true ∧
    containsSeq "INVALID_ARGUMENT: some other failure".toList
      (runReplyAgent {} "main" { sessionId := "session-ok" }
        { userPrompt := "hello".toList,
          mainResult := Except.error "INVALID_ARGUMENT: some other failure".toList }
        { mem := [("main", { sessionId := "session-ok" })],
          persisted := [("main", { sessionId := "session-ok" })] }).reply = true ∧
    (runReplyAgent {} "main" { sessionId := "session-ok" }
        { userPrompt := "hello".toList,
          mainResult := Except.error "INVALID_ARGUMENT: some other failure".toList }
        { mem := [("main", { sessionId := "session-ok" })],
          persisted := [("main", { sessionId := "session-ok" })] }).state =
      { mem := [("main", { sessionId := "session-ok" })],
        persisted := [("main", { sessionId := "session-ok" })] } ∧
    (runReplyAgent {} "main" { sessionId := "session-ok" }
        { userPrompt := "hello".toList,
          mainResult := Except.error "INVALID_ARGUMENT: some other failure".toList }
        { mem := [("main", { sessionId := "session-ok" })],
          persisted := [("main", { sessionId := "session-ok" })] }).state.mem.find
      "main" = some { sessionId := "session-ok" } :=
  have h := generic_failure_no_reset {} "main" { sessionId := "session-ok" }
    { userPrompt := "hello".toList,
      mainResult := Except.error "INVALID_ARGUMENT: some other failure".toList }
    { mem := [("main", { sessionId := "session-ok" })],
      persisted := [("main", { sessionId := "session-ok" })] }
    "INVALID_ARGUMENT: some other failure".toList
    rfl (by decide) (by decide) (by decide) (by decide) (by decide) (by decide)
    (by decide) (by decide) (by decide) (by decide) (by decide) (by decide) rfl
  ⟨h.1, h.2.1, h.2.2.1, h.2.2.2.1, h.2.2.2.2.1⟩

/-- Claim C9: engine operations keep `compactionCount` monotonically
non-decreasing and `memoryFlushCompactionCount ≤ compactionCount` (at most one
flush per cycle: right after a flush the eligibility test is false), and a
compaction `end` event during the flush turn increments `compactionCount` by
exactly one and sets `memoryFlushCompactionCount` to the new count. -/
theorem compaction_bookkeeping_invariant
    (cfg : RunnerConfig) (key : String) (e e' : SessionEntry) (inp : RunnerInput)
    (st : RunnerState)
    (cfg₂ : RunnerConfig) (key₂ : String) (e₂ : SessionEntry) (inp₂ : RunnerInput)
    (st₂ : RunnerState) (t₂ : Txt)
    (hInv : mfccVal e ≤ e.compactionCount)
    (hmb : st.mem.find key = some e)
    (hfind : (runReplyAgent cfg key e inp st).state.mem.find key = some e')
    (hb₂ : cfg₂.backend = Backend.embedded)
    (hen₂ : cfg₂.memoryFlushEnabled = true)
    (hlt₂ : mfccVal e₂ < e₂.compactionCount)
    (hends₂ : inp₂.flushCompactionEnds = 1)
    (hok₂ : inp₂.mainResult = Except.ok t₂) :
    (e.compactionCount ≤ e'.compactionCount ∧ mfccVal e' ≤ e'.compactionCount) ∧
      (∃ e'', (runReplyAgent cfg₂ key₂ e₂ inp₂ st₂).state.mem.find key₂ = some e'' ∧
        e''.compactionCount = e₂.compactionCount + 1 ∧
        e''.memoryFlushCompactionCount = some (e₂.compactionCount + 1) ∧
        shouldFlush cfg₂ e'' = false) := by
  constructor
  · cases hsf : shouldFlush cfg e with
    | false =>
      cases hm : inp.mainResult with
      | ok t =>
        simp only [runReplyAgent, hsf, Bool.false_eq_true, if_false, hm,
          Store.find_set_self] at hfind
        injection hfind with he'
        rw [← he']
        exact ⟨Nat.le_refl _, hInv⟩
      | error msg =>
        cases hcl : classifyErr msg with
        | corruptedSession =>
          simp [runReplyAgent, hsf, hm, handleRunError, hcl,
            Store.find_remove_self] at hfind
        | transportFailure =>
          simp only [runReplyAgent, hsf, Bool.false_eq_true, if_false, hm,
            handleRunError, hcl] at hfind
          rw [hmb] at hfind
          injection hfind with he'
          rw [← he']
          exact ⟨Nat.le_refl _, hInv⟩
        | generic =>
          simp only [runReplyAgent, hsf, Bool.false_eq_true, if_false, hm,
            handleRunError, hcl] at hfind
          rw [hmb] at hfind
          injection hfind with he'
          rw [← he']
          exact ⟨Nat.le_refl _, hInv⟩
        | compactionFailure =>
          simp only [runReplyAgent, hsf, Bool.false_eq_true, if_false, hm,
            handleRunError, hcl, Store.find_set_self] at hfind
          injection hfind with he'
          rw [← he']
          exact ⟨Nat.le_refl _, hInv⟩
        | contextOverflow =>
          simp only [runReplyAgent, hsf, Bool.false_eq_true, if_false, hm,
            handleRunError, hcl, Store.find_set_self] at hfind
          injection hfind with he'
          rw [← he']
          exact ⟨Nat.le_refl _, hInv⟩
        | roleOrdering =>
          simp only [runReplyAgent, hsf, Bool.false_eq_true, if_false, hm,
            handleRunError, hcl, Store.find_set_self] at hfind
          injection hfind with he'
          rw [← he']
          exact ⟨Nat.le_refl _, hInv⟩
    | true =>
      cases hm : inp.mainResult with
      | ok t =>
        simp only [runReplyAgent, hsf, if_true, hm, Store.find_set_self] at hfind
        injection hfind with he'
        rw [← he']
        simp [applyFlush, mfccVal]
      | error msg =>
        cases hcl : classifyErr msg with
        | corruptedSession =>
          simp [runReplyAgent, hsf, hm, handleRunError, hcl,
            Store.find_remove_self] at hfind
        | transportFailure =>
          simp only [runReplyAgent, hsf, if_true, hm, handleRunError, hcl,
            Store.find_set_self] at hfind
          injection hfind with he'
          rw [← he']
          simp [applyFlush, mfccVal]
        | generic =>
          simp only [runReplyAgent, hsf, if_true, hm, handleRunError, hcl,
            Store.find_set_self] at hfind
          injection hfind with he'
          rw [← he']
          simp [applyFlush, mfccVal]
        | compactionFailure =>
          simp only [runReplyAgent, hsf, if_true, hm, handleRunError, hcl,
            Store.find_set_self] at hfind
          injection hfind with he'
          rw [← he']
          simp [applyFlush, mfccVal]
        | contextOverflow =>
          simp only [runReplyAgent, hsf, if_true, hm, handleRunError, hcl,
            Store.find_set_self] at hfind
          injection hfind with he'
          rw [← he']
          simp [applyFlush, mfccVal]
        | roleOrdering =>
          simp only [runReplyAgent, hsf, if_true, hm, handleRunError, hcl,
            Store.find_set_self] at hfind
          injection hfind with he'
          rw [← he']
          simp [applyFlush, mfccVal]
  · have hsf₂ : shouldFlush cfg₂ e₂ = true := by
      unfold shouldFlush
      rw [hb₂, hen₂]
      simp [hlt₂]
    refine ⟨{ applyFlush e₂ inp₂.flushCompactionEnds inp₂.nowMs with
      updatedAt := inp₂.nowMs }, ?_, ?_, ?_, ?_⟩
    · simp only [runReplyAgent, hsf₂, if_true, hok₂]
      exact Store.find_set_self _ _ _
    · simp [applyFlush, hends₂]
    · simp [applyFlush, hends₂]
    · simp [shouldFlush, mfccVal, applyFlush]

/-- Witness for C9: a run over an entry with `compactionCount = 1` and
`memoryFlushCompactionCount = some 1` preserves the invariant, and a flush
turn with one compaction `end` event moves `compactionCount` from 1 to 2 with
`memoryFlushCompactionCount = 2` and no further flush eligible. -/
theorem compaction_bookkeeping_invariant_witness :
    ((1 : Nat) ≤
        ({ sessionId := "session", updatedAt := 7, compactionCount := 1,
           memoryFlushCompactionCount := some 1 } : SessionEntry).compactionCount ∧
      mfccVal ({ sessionId := "session", updatedAt := 7, compactionCount := 1,
                 memoryFlushCompactionCount := some 1 } : SessionEntry) ≤
        ({ sessionId := "session", updatedAt := 7, compactionCount := 1,
           memoryFlushCompactionCount := some 1 } : SessionEntry).compactionCount) ∧
      (∃ e'', (runReplyAgent {} "main" { sessionId := "session", compactionCount := 1 }
          { userPrompt := "hello".toList, nowMs := 7, flushCompactionEnds := 1,
            mainResult := Except.ok "ok".toList }
          { mem := [], persisted := [] }).state.mem.find "main" = some e'' ∧
        e''.compactionCount = 1 + 1 ∧
        e''.memoryFlushCompactionCount = some (1 + 1) ∧
        shouldFlush {} e'' = false) := by
  have h := compaction_bookkeeping_invariant
    {}
    "main"
    { sessionId := "session", compactionCount := 1, memoryFlushCompactionCount := some 1 }
    { sessionId := "session", updatedAt := 7, compactionCount := 1,
      memoryFlushCompactionCount := some 1 }
    { userPrompt := "hello".toList, nowMs := 7, mainResult := Except.ok "ok".toList }
    { mem := [("main",
        { sessionId := "session", compactionCount := 1,
          memoryFlushCompactionCount := some 1 })],
      persisted := [("main",
        { sessionId := "session", compactionCount := 1,
          memoryFlushCompactionCount := some 1 })] }
    {}
    "main"
    { sessionId := "session", compactionCount := 1 }
    { userPrompt := "hello".toList, nowMs := 7, flushCompactionEnds := 1,
      mainResult := Except.ok "ok".toList }
    { mem := [], persisted := [] }
    "ok".toList
    (by decide) (by decide) (by decide) rfl rfl (by decide) rfl rfl
  exact ⟨h.1, h.2⟩

/-- Claim C6: after a mutating tool failure, `getLastToolError()` still
reports the failure after any later success whose action signature (tool name
plus significant arguments) differs — an unrelated tool, the same tool on a
different target, or the same tool without the failure's significant
arguments — and returns `none` exactly after a success whose action signature
matches the failure's. -/
theorem tool_error_signature_tracking (f s s' : ToolCall)
    (hf : isMutating f = true) (hfe : f.isError = true)
    (hs : s.isError = false) (hneq : sigOf s ≠ sigOf f)
    (hs' : s'.isError = false) (heq : sigOf s' = sigOf f) :
    getLastToolError [f, s] = some { toolName := f.toolName, sig := sigOf f } ∧
      getLastToolError [f, s'] = none := by
  have h1 : stepTool none f = some { toolName := f.toolName, sig := sigOf f } := by
    simp [stepTool, hfe, hf]
  constructor
  · show List.foldl stepTool none [f, s] = _
    simp only [List.foldl, h1]
    simp [stepTool, hs, hneq]
  · show List.foldl stepTool none [f, s'] = _
    simp only [List.foldl, h1]
    simp [stepTool, hs', heq]

/-- Witness for C6: a failed `write` to `/tmp/demo.txt` survives a successful
`read` of the same path and a successful `write` to a different path, is
cleared by a successful `write` to the same path, and a failed
`session_status` model mutation survives a read-only `session_status`
success. -/
theorem tool_error_signature_tracking_witness :
    (getLastToolError
        [{ toolName := "write", args := [("path", "/tmp/demo.txt"), ("content", "next")],
           isError := true },
         { toolName := "read", args := [("path", "/tmp/demo.txt")] }] =
      some { toolName := "write",
             sig := ("write", [("path", "/tmp/demo.txt")]) } ∧
      getLastToolError
        [{ toolName := "write", args := [("path", "/tmp/demo.txt"), ("content", "next")],
           isError := true },
         { toolName := "write", args := [("path", "/tmp/demo.txt"), ("content", "retry")] }] =
      none) ∧
    (getLastToolError
        [{ toolName := "write", args := [("path", "/tmp/a.txt"), ("content", "first")],
           isError := true },
         { toolName := "write", args := [("path", "/tmp/b.txt"), ("content", "second")] }] =
      some { toolName := "write",
             sig := ("write", [("path", "/tmp/a.txt")]) }) ∧
    (getLastToolError
        [{ toolName := "session_status",
           args := [("sessionKey", "agent:main:main"), ("model", "openai/gpt-4o")],
           isError := true },
         { toolName := "session_status", args := [("sessionKey", "agent:main:main")] }] =
      some { toolName := "session_status",
             sig := ("session_status",
               [("sessionKey", "agent:main:main"), ("model", "openai/gpt-4o")]) }) := by
  refine ⟨?_, ?_, ?_⟩
  · have h := tool_error_signature_tracking
      { toolName := "write", args := [("path", "/tmp/demo.txt"), ("content", "next")],
        isError := true }
      { toolName := "read", args := [("path", "/tmp/demo.txt")] }
      { toolName := "write", args := [("path", "/tmp/demo.txt"), ("content", "retry")] }
      (by decide) rfl rfl (by decide) rfl (by decide)
    exact ⟨h.1, h.2⟩
  · have h := tool_error_signature_tracking
      { toolName := "write", args := [("path", "/tmp/a.txt"), ("content", "first")],
        isError := true }
      { toolName := "write", args := [("path", "/tmp/b.txt"), ("content", "second")] }
      { toolName := "write", args := [("path", "/tmp/a.txt"), ("content", "again")] }
      (by decide) rfl rfl (by decide) rfl (by decide)
    exact h.1
  · have h := tool_error_signature_tracking
      { toolName := "session_status",
        args := [("sessionKey", "agent:main:main"), ("model", "openai/gpt-4o")],
        isError := true }
      { toolName := "session_status", args := [("sessionKey", "agent:main:main")] }
      { toolName := "session_status",
        args := [("sessionKey", "agent:main:main"), ("model", "openai/gpt-4o")] }
      (by decide) rfl rfl (by decide) rfl (by decide)
    exact h.1

/-! ## Round-trip lemmas for the reasoning-tag normalizer (C5) -/

theorem leadsWith_of_take {p x : Txt} {m : Nat} (h : leadsWith p (x.take m) = true) :
    leadsWith p x = true := by
  obtain ⟨t, ht⟩ := (leadsWith_iff _ _).mp h
  refine (leadsWith_iff _ _).mpr ⟨t ++ x.drop m, ?_⟩
  rw [← List.append_assoc, ← ht, List.take_append_drop]

theorem leadsWith_take_of_le {p x : Txt} {m : Nat} (h : leadsWith p x = true)
    (hm : p.length ≤ m) : leadsWith p (x.take m) = true := by
  obtain ⟨t, ht⟩ := (leadsWith_iff _ _).mp h
  refine (leadsWith_iff _ _).mpr ⟨t.take (m - p.length), ?_⟩
  rw [ht, List.take_append_eq_append_take, List.take_of_length_le hm]

theorem leadsWith_drop_take {p x : Txt} {n i : Nat}
    (h : leadsWith p ((x.take n).drop i) = true) : leadsWith p (x.drop i) = true := by
  rw [List.drop_take] at h
  exact leadsWith_of_take h

theorem splitFirst_first_occ {pat : Txt} (hpat : pat ≠ []) :
    ∀ {a : Txt} (b : Txt),
      (∀ i < a.length, leadsWith pat ((a ++ pat ++ b).drop i) = false) →
      splitFirst pat (a ++ pat ++ b) = some (a, b) := by
  intro a
  induction a with
  | nil =>
    intro b _
    cases pat with
    | nil => exact absurd rfl hpat
    | cons p ps =>
      simp only [List.nil_append]
      show splitFirst (p :: ps) (p :: (ps ++ b)) = some ([], b)
      rw [splitFirst]
      rw [if_pos (by
        rw [show p :: (ps ++ b) = (p :: ps) ++ b from rfl]
        exact leadsWith_append _ _)]
      rw [show p :: (ps ++ b) = (p :: ps) ++ b from rfl, List.drop_left]
  | cons x xs ih =>
    intro b hno
    have h0 : leadsWith pat ((x :: xs) ++ pat ++ b) = false := by
      have := hno 0 (by simp)
      simpa using this
    show splitFirst pat (x :: (xs ++ pat ++ b)) = some (x :: xs, b)
    rw [splitFirst]
    rw [if_neg (by
      rw [show x :: (xs ++ pat ++ b) = (x :: xs) ++ pat ++ b from by simp, h0]
      exact Bool.false_ne_true)]
    have hrec := ih b (fun i hi => by
      have := hno (i + 1) (by simpa using Nat.succ_lt_succ hi)
      simpa [List.drop_succ_cons] using this)
    rw [hrec]

theorem splitFirst_take_none {pat l : Txt} {n : Nat} (hpat : pat ≠ [])
    (h : splitFirst pat l = none) : splitFirst pat (l.take n) = none := by
  cases hs : splitFirst pat (l.take n) with
  | none => rfl
  | some p =>
    exfalso
    obtain ⟨a, b⟩ := p
    have hdec := splitFirst_sound hs
    have hl : l = a ++ pat ++ (b ++ l.drop n) := by
      conv_lhs => rw [← List.take_append_drop n l]
      rw [hdec]
      simp [List.append_assoc]
    have := splitFirst_isSome_of_decomp hpat hl
    rw [h] at this
    simp at this

theorem chooseTag_eq_none_of {buf : Txt}
    (h : ∀ tg ∈ TAGS, (splitFirst tg.1 buf).isSome = false) : chooseTag buf = none := by
  unfold chooseTag
  rw [List.find?_eq_none]
  intro tg htg
  simp [h tg htg]

theorem chooseTag_eq_some_of {o c buf : Txt} (hmem : (o, c) ∈ TAGS)
    (hours : (splitFirst o buf).isSome = true)
    (hothers : ∀ tg ∈ TAGS, tg ≠ (o, c) → (splitFirst tg.1 buf).isSome = false) :
    chooseTag buf = some (o, c) := by
  have hm : (o, c) = ("<think>".toList, "</think>".toList) ∨
      (o, c) = ("<thinking>".toList, "</thinking>".toList) ∨
      (o, c) = ("<thought>".toList, "</thought>".toList) ∨
      (o, c) = ("<antthinking>".toList, "</antthinking>".toList) := by
    simpa [TAGS] using hmem
  rcases hm with h | h | h | h
  · have ho : o = "<think>".toList := congrArg Prod.fst h
    have hc : c = "</think>".toList := congrArg Prod.snd h
    subst ho
    subst hc
    unfold chooseTag TAGS
    rw [List.find?_cons_of_pos _ (by simpa using hours)]
  · have ho : o = "<thinking>".toList := congrArg Prod.fst h
    have hc : c = "</thinking>".toList := congrArg Prod.snd h
    subst ho
    subst hc
    have h1 := hothers ("<think>".toList, "</think>".toList) (by simp [TAGS]) (by decide)
    unfold chooseTag TAGS
    rw [List.find?_cons_of_neg _ (by simpa using h1),
      List.find?_cons_of_pos _ (by simpa using hours)]
  · have ho : o = "<thought>".toList := congrArg Prod.fst h
    have hc : c = "</thought>".toList := congrArg Prod.snd h
    subst ho
    subst hc
    have h1 := hothers ("<think>".toList, "</think>".toList) (by simp [TAGS]) (by decide)
    have h2 := hothers ("<thinking>".toList, "</thinking>".toList) (by simp [TAGS])
      (by decide)
    unfold chooseTag TAGS
    rw [List.find?_cons_of_neg _ (by simpa using h1),
      List.find?_cons_of_neg _ (by simpa using h2),
      List.find?_cons_of_pos _ (by simpa using hours)]
  · have ho : o = "<antthinking>".toList := congrArg Prod.fst h
    have hc : c = "</antthinking>".toList := congrArg Prod.snd h
    subst ho
    subst hc
    have h1 := hothers ("<think>".toList, "</think>".toList) (by simp [TAGS]) (by decide)
    have h2 := hothers ("<thinking>".toList, "</thinking>".toList) (by simp [TAGS])
      (by decide)
    have h3 := hothers ("<thought>".toList, "</thought>".toList) (by simp [TAGS])
      (by decide)
    unfold chooseTag TAGS
    rw [List.find?_cons_of_neg _ (by simpa using h1),
      List.find?_cons_of_neg _ (by simpa using h2),
      List.find?_cons_of_neg _ (by simpa using h3),
      List.find?_cons_of_pos _ (by simpa using hours)]

theorem split_open_take {a o R : Txt} {n : Nat} (ho : o ≠ [])
    (hpre : ∀ i < a.length, leadsWith o ((a ++ o ++ R).drop i) = false)
    (hn : a.length + o.length ≤ n) :
    splitFirst o ((a ++ o ++ R).take n) =
      some (a, R.take (n - (a.length + o.length))) := by
  have htake : (a ++ o ++ R).take n =
      a ++ o ++ R.take (n - (a.length + o.length)) := by
    rw [List.take_append_eq_append_take,
      List.take_of_length_le (by rw [List.length_append]; exact hn), List.length_append]
  rw [htake]
  refine splitFirst_first_occ ho _ fun i hi => ?_
  cases hlw : leadsWith o ((a ++ o ++ R.take (n - (a.length + o.length))).drop i) with
  | false => rfl
  | true =>
    exfalso
    rw [← htake] at hlw
    have hT := leadsWith_drop_take hlw
    rw [hpre i hi] at hT
    exact Bool.false_ne_true hT

theorem split_open_take_none {a o R : Txt} {n : Nat}
    (hpre : ∀ i < a.length, leadsWith o ((a ++ o ++ R).drop i) = false)
    (hn : n < a.length + o.length) :
    splitFirst o ((a ++ o ++ R).take n) = none := by
  cases hs : splitFirst o ((a ++ o ++ R).take n) with
  | none => rfl
  | some p =>
    exfalso
    obtain ⟨x, b⟩ := p
    have hdec := splitFirst_sound hs
    have hocc : leadsWith o (((a ++ o ++ R).take n).drop x.length) = true := by
      rw [hdec, List.append_assoc, List.drop_left]
      exact leadsWith_append _ _
    have hT := leadsWith_drop_take hocc
    have hlen1 : ((a ++ o ++ R).take n).length ≤ n := by
      simp [List.length_take]
    have hlen2 : x.length + o.length ≤ ((a ++ o ++ R).take n).length := by
      rw [hdec]
      simp [List.length_append]
    have ha : x.length < a.length := by omega
    rw [hpre x.length ha] at hT
    exact Bool.false_ne_true hT

theorem tag_fst_ne_nil : ∀ tg ∈ TAGS, tg.1 ≠ [] := by decide

theorem stepDelta_buffer (st : SubState) (d : Txt) :
    (stepDelta st d).buffer = st.buffer ++ d := by
  unfold stepDelta
  split
  · rfl
  · split
    · rfl
    · split
      · split <;> rfl
      · rfl

theorem stepDelta_inv {o c pre inner post : Txt}
    (hmem : (o, c) ∈ TAGS) (ho : o ≠ []) (hc : c ≠ [])
    (hpre : ∀ i < pre.length,
      leadsWith o ((pre ++ o ++ (inner ++ c ++ post)).drop i) = false)
    (hinner : ∀ i < inner.length, leadsWith c ((inner ++ c ++ post).drop i) = false)
    (hother : ∀ tg ∈ TAGS, tg ≠ (o, c) →
      splitFirst tg.1 (pre ++ o ++ (inner ++ c ++ post)) = none)
    (st : SubState) (d ext : Txt)
    (hbuf : (st.buffer ++ d) ++ ext = pre ++ o ++ (inner ++ c ++ post))
    (hcl1 : st.buffer.length < pre.length + o.length + inner.length + c.length →
      st.closed = false)
    (hcl2 : pre.length + o.length + inner.length + c.length ≤ st.buffer.length →
      st.closed = true ∧
        st.reasoningEmits.getLast? = some (wrapReasoning (trimC inner))) :
    ((stepDelta st d).buffer.length < pre.length + o.length + inner.length + c.length →
      (stepDelta st d).closed = false) ∧
    (pre.length + o.length + inner.length + c.length ≤ (stepDelta st d).buffer.length →
      (stepDelta st d).closed = true ∧
        (stepDelta st d).reasoningEmits.getLast? = some (wrapReasoning (trimC inner))) ∧
    (stepDelta st d).buffer = st.buffer ++ d := by
  have hbufT : st.buffer ++ d =
      (pre ++ o ++ (inner ++ c ++ post)).take ((st.buffer ++ d).length) := by
    rw [← hbuf, List.take_left]
  have hle : st.buffer.length ≤ (st.buffer ++ d).length := by
    simp [List.length_append]
  rcases Nat.lt_or_ge ((st.buffer ++ d).length) (pre.length + o.length) with hB1 | hB1
  · have hnone : chooseTag (st.buffer ++ d) = none := by
      rw [hbufT]
      refine chooseTag_eq_none_of fun tg htg => ?_
      by_cases hne : tg = (o, c)
      · subst hne
        show (splitFirst o
          ((pre ++ o ++ (inner ++ c ++ post)).take ((st.buffer ++ d).length))).isSome = false
        rw [split_open_take_none hpre hB1]
        rfl
      · rw [splitFirst_take_none (tag_fst_ne_nil tg htg) (hother tg htg hne)]
        rfl
    refine ⟨?_, ?_, ?_⟩
    · intro _
      simp only [stepDelta, hnone]
      exact hcl1 (by omega)
    · intro hge
      rw [stepDelta_buffer] at hge
      exact absurd hge (by omega)
    · exact stepDelta_buffer st d
  · have hso' : splitFirst o (st.buffer ++ d) =
        some (pre, (inner ++ c ++ post).take
          ((st.buffer ++ d).length - (pre.length + o.length))) := by
      conv_lhs => rw [hbufT]
      exact split_open_take ho hpre hB1
    have hchoose : chooseTag (st.buffer ++ d) = some (o, c) := by
      rw [hbufT]
      refine chooseTag_eq_some_of hmem ?_ fun tg htg hne => ?_
      · rw [split_open_take ho hpre hB1]
        rfl
      · rw [splitFirst_take_none (tag_fst_ne_nil tg htg) (hother tg htg hne)]
        rfl
    rcases Nat.lt_or_ge ((st.buffer ++ d).length)
        (pre.length + o.length + inner.length + c.length) with hB2 | hB2
    · have hscn' : splitFirst c ((inner ++ c ++ post).take
          ((st.buffer ++ d).length - (pre.length + o.length))) = none :=
        split_open_take_none (a := inner) (o := c) (R := post) hinner (by omega)
      refine ⟨?_, ?_, ?_⟩
      · intro _
        simp only [stepDelta, hchoose, hso', hscn']
        exact hcl1 (by omega)
      · intro hge
        rw [stepDelta_buffer] at hge
        exact absurd hge (by omega)
      · exact stepDelta_buffer st d
    · have hsc' : splitFirst c ((inner ++ c ++ post).take
          ((st.buffer ++ d).length - (pre.length + o.length))) =
          some (inner, post.take ((st.buffer ++ d).length - (pre.length + o.length)
            - (inner.length + c.length))) :=
        split_open_take (a := inner) (o := c) (R := post) hc hinner (by omega)
      cases hclv : st.closed with
      | true =>
        have hB2old : pre.length + o.length + inner.length + c.length ≤
            st.buffer.length := by
          by_contra hlt
          rw [hcl1 (by omega)] at hclv
          exact Bool.false_ne_true hclv
        obtain ⟨-, hlast⟩ := hcl2 hB2old
        refine ⟨?_, ?_, ?_⟩
        · intro hlt
          rw [stepDelta_buffer] at hlt
          exact absurd hlt (by omega)
        · intro _
          simp only [stepDelta, hchoose, hso', hsc']
          rw [if_pos hclv]
          exact ⟨hclv, hlast⟩
        · exact stepDelta_buffer st d
      | false =>
        refine ⟨?_, ?_, ?_⟩
        · intro hlt
          rw [stepDelta_buffer] at hlt
          exact absurd hlt (by omega)
        · intro _
          simp only [stepDelta, hchoose, hso', hsc']
          rw [if_neg (by rw [hclv]; exact Bool.false_ne_true)]
          exact ⟨rfl, List.getLast?_concat _⟩
        · exact stepDelta_buffer st d

theorem tag_snd_ne_nil : ∀ tg ∈ TAGS, tg.2 ≠ [] := by decide

theorem foldl_stepDelta_inv {o c pre inner post : Txt}
    (hmem : (o, c) ∈ TAGS) (ho : o ≠ []) (hc : c ≠ [])
    (hpre : ∀ i < pre.length,
      leadsWith o ((pre ++ o ++ (inner ++ c ++ post)).drop i) = false)
    (hinner : ∀ i < inner.length, leadsWith c ((inner ++ c ++ post).drop i) = false)
    (hother : ∀ tg ∈ TAGS, tg ≠ (o, c) →
      splitFirst tg.1 (pre ++ o ++ (inner ++ c ++ post)) = none) :
    ∀ (ds : List Txt) (st : SubState),
      st.buffer ++ joinL ds = pre ++ o ++ (inner ++ c ++ post) →
      (st.buffer.length < pre.length + o.length + inner.length + c.length →
        st.closed = false) →
      (pre.length + o.length + inner.length + c.length ≤ st.buffer.length →
        st.closed = true ∧
          st.reasoningEmits.getLast? = some (wrapReasoning (trimC inner))) →
      (List.foldl stepDelta st ds).buffer = st.buffer ++ joinL ds ∧
      (pre.length + o.length + inner.length + c.length ≤
          (List.foldl stepDelta st ds).buffer.length →
        (List.foldl stepDelta st ds).closed = true ∧
          (List.foldl stepDelta st ds).reasoningEmits.getLast? =
            some (wrapReasoning (trimC inner))) := by
  intro ds
  induction ds with
  | nil =>
    intro st _ _ hcl2
    refine ⟨by simp [joinL], ?_⟩
    simpa [joinL] using hcl2
  | cons d rest ih =>
    intro st hbuf hcl1 hcl2
    have hjoin : joinL (d :: rest) = d ++ joinL rest := rfl
    have hbuf' : (st.buffer ++ d) ++ joinL rest = pre ++ o ++ (inner ++ c ++ post) := by
      rw [← hbuf, hjoin, List.append_assoc]
    have hstep := stepDelta_inv hmem ho hc hpre hinner hother st d (joinL rest)
      hbuf' hcl1 hcl2
    have hbufstep : (stepDelta st d).buffer ++ joinL rest =
        pre ++ o ++ (inner ++ c ++ post) := by
      rw [hstep.2.2]
      exact hbuf'
    have hrec := ih (stepDelta st d) hbufstep hstep.1 hstep.2.1
    refine ⟨?_, ?_⟩
    · show (List.foldl stepDelta (stepDelta st d) rest).buffer = _
      rw [hrec.1, hstep.2.2, hjoin, List.append_assoc]
    · show pre.length + o.length + inner.length + c.length ≤
          (List.foldl stepDelta (stepDelta st d) rest).buffer.length → _
      exact hrec.2

/-- Claim C5: for any sequence of text deltas reconstructing to a text `T`
containing one balanced reasoning-tag pair of any accepted spelling — even
when the tags straddle chunk boundaries — the delivered visible text equals
`T` with the tagged span and tags removed, the reasoning callback's last value
equals the tagged span content wrapped in the reasoning template
("Reasoning:\n_..._"), and the structured content is rewritten to a thinking
segment followed by a text segment. -/
theorem reasoning_tag_round_trip
    (ds : List Txt) (o c pre inner post : Txt)
    (hmem : (o, c) ∈ TAGS)
    (hT : joinL ds = pre ++ o ++ (inner ++ c ++ post))
    (hpre : ∀ i < pre.length,
      leadsWith o ((pre ++ o ++ (inner ++ c ++ post)).drop i) = false)
    (hinner : ∀ i < inner.length, leadsWith c ((inner ++ c ++ post).drop i) = false)
    (hother : ∀ tg ∈ TAGS, tg ≠ (o, c) →
      splitFirst tg.1 (pre ++ o ++ (inner ++ c ++ post)) = none) :
    (subscribeEmbeddedPiSession ds).visible = trimC (pre ++ post) ∧
      (subscribeEmbeddedPiSession ds).lastReasoning =
        some (wrapReasoning (trimC inner)) ∧
      (subscribeEmbeddedPiSession ds).content =
        [Segment.thinking (trimC inner), Segment.text (trimC (pre ++ post))] := by
  have ho : o ≠ [] := tag_fst_ne_nil (o, c) hmem
  have hc : c ≠ [] := tag_snd_ne_nil (o, c) hmem
  have holen : 0 < o.length := List.length_pos.mpr ho
  have hfold := foldl_stepDelta_inv hmem ho hc hpre hinner hother ds {}
    (by simpa using hT)
    (fun _ => rfl)
    (by
      intro habs
      simp only [List.length_nil] at habs
      omega)
  have hbufT : (List.foldl stepDelta {} ds).buffer =
      pre ++ o ++ (inner ++ c ++ post) := by
    rw [hfold.1]
    simpa using hT
  have hlenT : pre.length + o.length + inner.length + c.length ≤
      (List.foldl stepDelta {} ds).buffer.length := by
    rw [hbufT]
    simp only [List.length_append]
    omega
  have hlast := hfold.2 hlenT
  have hsoT : splitFirst o (pre ++ o ++ (inner ++ c ++ post)) =
      some (pre, inner ++ c ++ post) :=
    splitFirst_first_occ ho _ hpre
  have hscT : splitFirst c (inner ++ c ++ post) = some (inner, post) :=
    splitFirst_first_occ hc _ hinner
  have hchooseT : chooseTag (pre ++ o ++ (inner ++ c ++ post)) = some (o, c) :=
    chooseTag_eq_some_of hmem (by rw [hsoT]; rfl)
      (fun tg htg hne => by rw [hother tg htg hne]; rfl)
  have hfin : finishMessage (pre ++ o ++ (inner ++ c ++ post)) =
      (trimC (pre ++ post),
        [Segment.thinking (trimC inner), Segment.text (trimC (pre ++ post))]) := by
    simp only [finishMessage, hchooseT, hsoT, hscT]
  refine ⟨?_, ?_, ?_⟩
  · show (finishMessage (List.foldl stepDelta {} ds).buffer).1 = _
    rw [hbufT, hfin]
  · exact hlast.2
  · show (finishMessage (List.foldl stepDelta {} ds).buffer).2 = _
    rw [hbufT, hfin]

/-- Witness for C5: the test's `<think>` message, chunked so that both the
open and the close tag straddle delta boundaries, delivers "Final answer",
streams "Reasoning:\n_Because it helps_" last, and rewrites the content into
a thinking segment followed by a text segment. -/
theorem reasoning_tag_round_trip_witness :
    (subscribeEmbeddedPiSession
        ["<thi".toList, "nk>\nBecause".toList, " it helps\n</th".toList,
         "ink>\n\nFinal answer".toList]).visible = "Final answer".toList ∧
      (subscribeEmbeddedPiSession
        ["<thi".toList, "nk>\nBecause".toList, " it helps\n</th".toList,
         "ink>\n\nFinal answer".toList]).lastReasoning =
        some "Reasoning:\n_Because it helps_".toList ∧
      (subscribeEmbeddedPiSession
        ["<thi".toList, "nk>\nBecause".toList, " it helps\n</th".toList,
         "ink>\n\nFinal answer".toList]).content =
        [Segment.thinking "Because it helps".toList,
         Segment.text "Final answer".toList] := by
  have h := reasoning_tag_round_trip
    ["<thi".toList, "nk>\nBecause".toList, " it helps\n</th".toList,
     "ink>\n\nFinal answer".toList]
    "<think>".toList "</think>".toList
    [] "\nBecause it helps\n".toList "\n\nFinal answer".toList
    (by decide) (by decide) (by decide) (by decide) (by decide)
  refine ⟨?_, ?_, ?_⟩
  · rw [h.1]
    decide
  · rw [h.2.1]
    decide
  · rw [h.2.2]
    decide

end OpenClaw
